import Mathlib

/-!
Verification of the realtime job-progress core of the NumberSrapper frontend.

The definitions below are a shallow embedding of the JavaScript source:
* `src/frontend/src/App.js` — the `Home` component: the WebSocket message
  handler (the `useEffect` switch over `data.type`), and the submission
  handlers `handleSingleUrlSubmit` / `handleBulkUpload`;
* `src/frontend/src/hooks/useWebSocket.js` — the reconnecting WebSocket
  hook: the `onopen` / `onclose` handlers, the exponential backoff
  schedule and the manual-close (code 1000) rule.

JavaScript numbers that only ever hold integral values are modelled as
`Int`; optional wire fields as `Option`; the JS truthiness test used by
`data.total || prev.total` is modelled explicitly (0 is falsy).
-/

namespace NumberScraper

/-- One tracked job, as built by `handleSingleUrlSubmit` / `handleBulkUpload`
in App.js and updated by the WebSocket message handler.  The JS object
fields are `id`, `type`, `status`, `progress`, `completed`, `failed`,
`total`; `type` is renamed `jobType` (keyword clash). -/
structure Job where
  id : String
  jobType : String
  status : String
  progress : Int
  completed : Int
  failed : Int
  total : Int
deriving DecidableEq, Repr

/-- One scraped-result record (the `data.data` payload of a `url_complete`
message).  The reconciler in App.js inspects only its `url` field
(`newResults.findIndex(r => r.url === data.url)`); the remaining content
(emails, phones, socials, ...) is abstracted as one opaque field. -/
structure ResultRecord where
  url : String
  content : String
deriving DecidableEq, Repr

/-- The state owned by the `Home` component that the message handler
mutates: `currentJob`, `jobResults` and `isLoading` (App.js lines 21-23). -/
structure HomeState where
  currentJob : Option Job
  jobResults : List ResultRecord
  isLoading : Bool
deriving DecidableEq, Repr

/-- A decoded inbound WebSocket message, discriminated by the wire field
`type` exactly as in the `switch (data.type)` of App.js; `other` covers
the `default` branch (unknown discriminators).  Field names follow the
wire names (`job_id` is `jobId`, `url` is the item key). -/
inductive WsMessage where
  | progressUpdate (jobId : String) (progress completed failed : Int)
      (total : Option Int)
  | urlComplete (jobId : String) (success : Bool) (url : String)
      (payload : Option ResultRecord)
  | jobComplete (jobId : String) (completed failed : Int) (total : Option Int)
  | jobError (jobId : String) (error : String)
  | other
deriving DecidableEq, Repr

/-- The JS expression `x || d` for an optional number `x`: JavaScript
treats an absent field and the number 0 as falsy, so both fall back to
`d`.  Models `total: data.total || prev.total` in App.js. -/
def jsOr (x : Option Int) (d : Int) : Int :=
  match x with
  | some t => if t = 0 then d else t
  | none => d

/-- Shallow embedding of JavaScript `Array.prototype.findIndex` (used at
App.js line 54), with the not-found result -1 rendered as `none`. -/
def findIndex (p : ResultRecord → Bool) : List ResultRecord → Option Nat
  | [] => none
  | r :: rest => if p r then some 0 else (findIndex p rest).map (· + 1)

/-- The `url_complete` update of `jobResults` (App.js lines 52-61): look
for an existing entry whose stored `url` field equals the incoming
`data.url`; replace it if found, append the payload otherwise. -/
def upsert (results : List ResultRecord) (url : String)
    (d : ResultRecord) : List ResultRecord :=
  match findIndex (fun r => r.url == url) results with
  | some i => results.set i d
  | none => results ++ [d]

/-- The body of the `switch (data.type)` in the message-handling
`useEffect` of App.js (lines 37-87), acting on the component state.
Rendering side effects (toasts, console logging) are outside the core and
not modelled; every state mutation is. -/
def handleWsMessage (s : HomeState) (m : WsMessage) : HomeState :=
  match m with
  | .progressUpdate jobId progress completed failed total =>
      match s.currentJob with
      | some j =>
          if jobId = j.id then
            { s with currentJob := some { j with
                progress := progress
                completed := completed
                failed := failed
                total := jsOr total j.total } }
          else s
      | none => s
  | .urlComplete _jobId success url payload =>
      if success then
        match payload with
        | some d => { s with jobResults := upsert s.jobResults url d }
        | none => s
      else s
  | .jobComplete jobId completed failed total =>
      let s1 := { s with isLoading := false }
      match s1.currentJob with
      | some j =>
          if jobId = j.id then
            { s1 with currentJob := some { j with
                status := "completed"
                progress := 100
                completed := completed
                failed := failed
                total := jsOr total j.total } }
          else s1
      | none => s1
  | .jobError _jobId _error => { s with isLoading := false }
  | .other => s

/-- The `useEffect` processing step (App.js lines 30-32): when the
message list is non-empty, only `messages[messages.length - 1]` is
decoded and handled; earlier entries of the batch are not visited. -/
def processLatest (s : HomeState) (msgs : List WsMessage) : HomeState :=
  match msgs.getLast? with
  | some m => handleWsMessage s m
  | none => s

/-- A run of successive effect invocations: each element of `batches` is
the list of messages appended to the transcript between two effect runs,
and each run processes (only) the last message then visible. -/
def runEffects (s : HomeState) (batches : List (List WsMessage)) : HomeState :=
  batches.foldl processLatest s

/-- Applying every received message, one by one, in receipt order — the
behaviour the spec asserts for the handler. -/
def applyInOrder (s : HomeState) (msgs : List WsMessage) : HomeState :=
  msgs.foldl handleWsMessage s

/-! ## Connection state machine (useWebSocket.js) -/

/-- The retry ceiling of useWebSocket.js (`maxReconnectAttempts = 5`). -/
def maxReconnectAttempts : Nat := 5

/-- The decision made by the `onclose` handler (useWebSocket.js lines
32-39): when the close code is not the manual-close code 1000 and the
attempt counter is below the ceiling, a retry is scheduled after
`Math.pow(2, reconnectAttempts) * 1000` milliseconds; otherwise no retry
is scheduled. -/
def oncloseSchedule (code : Nat) (attempts : Nat) : Option Nat :=
  if code ≠ 1000 ∧ attempts < maxReconnectAttempts then
    some (2 ^ attempts * 1000)
  else none

/-- The retry delays scheduled along a run of consecutive connection
losses, given the starting attempt counter and the close codes of the
successive losses.  The attempt counter is incremented inside the timer
callback, i.e. after each scheduled retry and before the next `connect`
(useWebSocket.js lines 36-39).  When a loss schedules no retry the
reconnect chain ends: no further socket is created, so remaining codes
cannot occur and the schedule stops. -/
def scheduleSeq (attempts : Nat) : List Nat → List Nat
  | [] => []
  | code :: rest =>
    match oncloseSchedule code attempts with
    | some d => d :: scheduleSeq (attempts + 1) rest
    | none => []

/-- The five backoff delays named by the spec: 2 ^ a * 1000 for
a = 0, 1, 2, 3, 4. -/
def backoffTable : List Nat := [1000, 2000, 4000, 8000, 16000]

/-- The mutable state of the useWebSocket hook: `isConnected` and `error`
(React state), the `reconnectAttempts` ref, and `pendingRetry` modelling
whether a scheduled retry timer is currently in flight
(`reconnectTimeout`), with its delay. -/
structure ConnState where
  isConnected : Bool
  error : Option String
  reconnectAttempts : Nat
  pendingRetry : Option Nat
deriving DecidableEq, Repr

/-- The `onopen` handler (useWebSocket.js lines 16-21): set
`isConnected`, clear `error`, reset the attempt counter to 0.  It
contains no `clearTimeout`, so `pendingRetry` is left untouched. -/
def onopen (s : ConnState) : ConnState :=
  { s with isConnected := true, error := none, reconnectAttempts := 0 }

/-- The `onclose` handler (useWebSocket.js lines 27-41) acting on the
hook state: connectivity drops, and `reconnectTimeout` is overwritten
only when a retry is actually scheduled. -/
def onclose (code : Nat) (s : ConnState) : ConnState :=
  match oncloseSchedule code s.reconnectAttempts with
  | some d => { s with isConnected := false, pendingRetry := some d }
  | none => { s with isConnected := false }

/-- The effect cleanup (useWebSocket.js lines 59-66): clear any pending
retry timer; the subsequent `ws.close(1000, ...)` then closes with the
manual-close code. -/
def cleanup (s : ConnState) : ConnState :=
  { s with pendingRetry := none }

/-! ## Job submission handlers (App.js) -/

/-- The body of a job-submission response
(`{status: "started", job_id}` or `{status: <other>, message}`). -/
structure SubmitResponse where
  status : String
  job_id : String
  message : String
deriving DecidableEq, Repr

/-- A status-poll request for one job, the observable effect of invoking
the polling fallback. -/
structure PollRequest where
  job_id : String
deriving DecidableEq, Repr

/-- Modelled from the spec: `pollJobStatus` is invoked at its call sites
in App.js (lines 118 and 158) but its definition is not among the
available sources.  Per the poll collaborator contract of the spec it is
a defined, total, idempotent status query keyed by `job_id`; its
observable effect here is the poll request it issues for that job. -/
def pollJobStatus (jobId : String) : PollRequest :=
  { job_id := jobId }

/-- The local outcome of a submission handler: the `started` branch (job
tracked, polling fallback invoked), the rejection branch (error toast),
or the catch branch (request threw).  Every branch of the JS handler ends
in one of these; there is no fourth, fault-propagating possibility. -/
inductive SubmitOutcome where
  | started (job : Job) (poll : PollRequest)
  | rejected (message : String)
  | requestFailed
deriving DecidableEq, Repr

/-- `handleSingleUrlSubmit` (App.js lines 94-128) after the request
resolves: `none` models the axios call throwing (caught at line 123);
on `status === "started"` the handler builds the job object of lines
105-113 (total 1), tracks it, and invokes the polling fallback. -/
def handleSingleUrlSubmit (poll : String → PollRequest)
    (resp : Option SubmitResponse) : SubmitOutcome :=
  match resp with
  | none => SubmitOutcome.requestFailed
  | some r =>
    if r.status = "started" then
      SubmitOutcome.started
        { id := r.job_id, jobType := "single", status := "started",
          progress := 0, completed := 0, failed := 0, total := 1 }
        (poll r.job_id)
    else SubmitOutcome.rejected r.message

/-- `handleBulkUpload` (App.js lines 130-168): identical control flow
with job type `bulk` and initial total 0 (updated later over the
WebSocket). -/
def handleBulkUpload (poll : String → PollRequest)
    (resp : Option SubmitResponse) : SubmitOutcome :=
  match resp with
  | none => SubmitOutcome.requestFailed
  | some r =>
    if r.status = "started" then
      SubmitOutcome.started
        { id := r.job_id, jobType := "bulk", status := "started",
          progress := 0, completed := 0, failed := 0, total := 0 }
        (poll r.job_id)
    else SubmitOutcome.rejected r.message

/-! ## Helper lemmas -/

/-- A found index returned by `findIndex` is inside the list. -/
theorem findIndex_lt_length (p : ResultRecord → Bool) :
    ∀ (l : List ResultRecord) (i : Nat), findIndex p l = some i → i < l.length := by
  intro l
  induction l with
  | nil => intro i h; simp [findIndex] at h
  | cons r rest ih =>
    intro i h
    by_cases hp : p r
    · simp [findIndex, hp] at h
      simp only [List.length_cons]
      omega
    · simp [findIndex, hp] at h
      obtain ⟨j, hj, hji⟩ := h
      have := ih j hj
      simp only [List.length_cons]
      omega

/-- Writing `d` at an in-range position puts `d` in the list. -/
theorem mem_set_self :
    ∀ (l : List ResultRecord) (i : Nat) (d : ResultRecord),
      i < l.length → d ∈ l.set i d := by
  intro l
  induction l with
  | nil => intro i d h; simp at h
  | cons r rest ih =>
    intro i d h
    cases i with
    | zero => simp
    | succ n =>
      simp only [List.set_cons_succ]
      exact List.mem_cons_of_mem r (ih n d (by simp at h; omega))

/-- A list holding a matching element yields a found index. -/
theorem findIndex_isSome_of_mem (p : ResultRecord → Bool) :
    ∀ (l : List ResultRecord) (d : ResultRecord),
      d ∈ l → p d = true → (findIndex p l).isSome := by
  intro l
  induction l with
  | nil => intro d h hp; simp at h
  | cons r rest ih =>
    intro d hmem hp
    by_cases hr : p r
    · simp [findIndex, hr]
    · rcases List.mem_cons.mp hmem with heq | hmem2
      · subst heq; exact absurd hp hr
      · have hs := ih d hmem2 hp
        simpa [findIndex, hr] using hs

/-- The upserted payload is always present afterwards: it either
replaced the found entry or was appended. -/
theorem mem_upsert_self (rs : List ResultRecord) (k : String) (d : ResultRecord) :
    d ∈ upsert rs k d := by
  unfold upsert
  cases hfi : findIndex (fun r => r.url == k) rs with
  | none => simp
  | some i => exact mem_set_self rs i d (findIndex_lt_length _ rs i hfi)

/-- Re-upserting the same payload under the key carried in its own `url`
field hits the replace branch, so the length is unchanged. -/
theorem upsert_upsert_length (rs : List ResultRecord) (k : String)
    (d : ResultRecord) (h : d.url = k) :
    (upsert (upsert rs k d) k d).length = (upsert rs k d).length := by
  have hsome : (findIndex (fun r => r.url == k) (upsert rs k d)).isSome :=
    findIndex_isSome_of_mem _ _ _ (mem_upsert_self rs k d) (by simp [h])
  obtain ⟨i, hi⟩ := Option.isSome_iff_exists.mp hsome
  conv_lhs => rw [upsert, hi]
  exact List.length_set _ _ _

/-- Closed form of the retry schedule under non-manual closes: starting
from attempt `a`, the scheduled delays are the backoff table from
position `a` on, cut to the number of losses. -/
theorem scheduleSeq_eq (codes : List Nat) :
    ∀ (a : Nat), (∀ c ∈ codes, c ≠ 1000) →
      scheduleSeq a codes = (backoffTable.drop a).take codes.length := by
  induction codes with
  | nil => intro a h; simp [scheduleSeq]
  | cons c rest ih =>
    intro a h
    have hc : c ≠ 1000 := h c (List.mem_cons_self c rest)
    have hrest : ∀ x ∈ rest, x ≠ 1000 := fun x hx => h x (List.mem_cons_of_mem c hx)
    by_cases ha : a < maxReconnectAttempts
    · have hs : oncloseSchedule c a = some (2 ^ a * 1000) := by
        simp [oncloseSchedule, hc, ha]
      have hstep : scheduleSeq a (c :: rest) = 2 ^ a * 1000 :: scheduleSeq (a + 1) rest := by
        simp [scheduleSeq, hs]
      rw [hstep, ih (a + 1) hrest]
      have ha5 : a < 5 := by simpa [maxReconnectAttempts] using ha
      interval_cases a <;> simp [backoffTable]
    · have hs : oncloseSchedule c a = none := by
        simp [oncloseSchedule]
        intro _
        simpa [maxReconnectAttempts] using ha
      have hdrop : backoffTable.drop a = [] := by
        have hlen : backoffTable.length ≤ a := by
          simp [backoffTable, maxReconnectAttempts] at ha ⊢
          omega
        exact List.drop_eq_nil_of_le hlen
      simp [scheduleSeq, hs, hdrop]

/-! ## Claim theorems -/

/-- Claim C1 (corrected): in a terminal state the handler keeps `status`
sticky, and `url_complete` events never touch the job snapshot at all,
but a matching `progress_update` still overwrites `progress`,
`completed` and `failed` (see the counterexample).  This theorem proves
the part that holds: `progress_update` never changes `status`, and
`url_complete` never changes the job snapshot. -/
theorem c1_status_sticky_only (s : HomeState) (jid : String) (p c f : Int)
    (t : Option Int) (su : Bool) (u : String) (pl : Option ResultRecord) :
    ((handleWsMessage s (.progressUpdate jid p c f t)).currentJob.map Job.status
        = s.currentJob.map Job.status)
    ∧ (handleWsMessage s (.urlComplete jid su u pl)).currentJob = s.currentJob := by
  constructor
  · cases hcj : s.currentJob with
    | none => simp [handleWsMessage, hcj]
    | some j => by_cases hid : jid = j.id <;> simp [handleWsMessage, hcj, hid]
  · cases pl <;> cases su <;> simp [handleWsMessage]

/-- Claim C1 counterexample: a job already in status `completed` (with
progress 100, completed 5, failed 1) receives a `progress_update` for the
same job id; the claim says status, progress, completed and failed all
stay unchanged, but progress becomes 40, completed 2 and failed 0. -/
theorem c1_counterexample :
    ¬ (((handleWsMessage
          { currentJob := some { id := "J1", jobType := "single", status := "completed", progress := 100, completed := 5, failed := 1, total := 6 }, jobResults := [], isLoading := false }
          (.progressUpdate "J1" 40 2 0 none)).currentJob.map Job.status
        = some "completed")
      ∧ ((handleWsMessage
          { currentJob := some { id := "J1", jobType := "single", status := "completed", progress := 100, completed := 5, failed := 1, total := 6 }, jobResults := [], isLoading := false }
          (.progressUpdate "J1" 40 2 0 none)).currentJob.map Job.progress
        = some 100)
      ∧ ((handleWsMessage
          { currentJob := some { id := "J1", jobType := "single", status := "completed", progress := 100, completed := 5, failed := 1, total := 6 }, jobResults := [], isLoading := false }
          (.progressUpdate "J1" 40 2 0 none)).currentJob.map Job.completed
        = some 5)
      ∧ ((handleWsMessage
          { currentJob := some { id := "J1", jobType := "single", status := "completed", progress := 100, completed := 5, failed := 1, total := 6 }, jobResults := [], isLoading := false }
          (.progressUpdate "J1" 40 2 0 none)).currentJob.map Job.failed
        = some 1)) := by decide

/-- Claim C2 (corrected): the `url_complete` branch performs no job id
comparison at all — the handler result is identical for any two job ids,
so events of a previous job are applied, not dropped.  What does hold:
such events never change the job snapshot or the loading flag. -/
theorem c2_urlComplete_ignores_jobId (s : HomeState) (jid jid2 u : String)
    (su : Bool) (pl : Option ResultRecord) :
    handleWsMessage s (.urlComplete jid su u pl)
      = handleWsMessage s (.urlComplete jid2 su u pl)
    ∧ (handleWsMessage s (.urlComplete jid su u pl)).currentJob = s.currentJob
    ∧ (handleWsMessage s (.urlComplete jid su u pl)).isLoading = s.isLoading := by
  refine ⟨rfl, ?_, ?_⟩ <;> cases pl <;> cases su <;> simp [handleWsMessage]

/-- Claim C2 counterexample: with job `J_new` tracked, a successful
`url_complete` carrying `job_id` `J_old` is not dropped — it inserts its
payload into the ResultSet (which the claim says stays unchanged). -/
theorem c2_counterexample :
    ¬ ((handleWsMessage
          { currentJob := some { id := "J_new", jobType := "bulk", status := "started", progress := 0, completed := 0, failed := 0, total := 0 }, jobResults := [], isLoading := true }
          (.urlComplete "J_old" true "a.com" (some { url := "a.com", content := "v1" }))).jobResults
        = []) := by decide

/-- Claim C3 (corrected): the `job_error` branch only clears the loading
flag (and toasts); it leaves the whole job snapshot — in particular
`status` — untouched, so status is never set to `failed` by the handler. -/
theorem c3_jobError_surfaces_only (s : HomeState) (jid msg : String) :
    handleWsMessage s (.jobError jid msg) = { s with isLoading := false } := rfl

/-- Claim C3 counterexample: a `job_error` event for the currently
tracked job `J1` leaves its status at `started`; the claim says the
status becomes `failed`. -/
theorem c3_counterexample :
    ¬ ((handleWsMessage
          { currentJob := some { id := "J1", jobType := "single", status := "started", progress := 0, completed := 0, failed := 0, total := 1 }, jobResults := [], isLoading := true }
          (.jobError "J1" "boom")).currentJob.map Job.status
        = some "failed") := by decide

/-- Claim C4 (confirmed, with `pollJobStatus` modelled from the spec):
for every submission response with status `started`, both submission
handlers end in the defined `started` outcome — the job object of the
source is tracked and the polling fallback `pollJobStatus` (a defined,
total operation) is invoked on the returned job id; no branch propagates
an unhandled fault. -/
theorem c4_submission_started_defined_outcome (r : SubmitResponse)
    (h : r.status = "started") :
    handleSingleUrlSubmit pollJobStatus (some r)
      = SubmitOutcome.started
          { id := r.job_id, jobType := "single", status := "started",
            progress := 0, completed := 0, failed := 0, total := 1 }
          (pollJobStatus r.job_id)
    ∧ handleBulkUpload pollJobStatus (some r)
      = SubmitOutcome.started
          { id := r.job_id, jobType := "bulk", status := "started",
            progress := 0, completed := 0, failed := 0, total := 0 }
          (pollJobStatus r.job_id) := by
  constructor <;> simp [handleSingleUrlSubmit, handleBulkUpload, h]

/-- Claim C4 witness: the theorem evaluated at a concrete `started`
response. -/
theorem c4_witness :
    handleSingleUrlSubmit pollJobStatus (some { status := "started", job_id := "J9", message := "" })
      = SubmitOutcome.started
          { id := "J9", jobType := "single", status := "started",
            progress := 0, completed := 0, failed := 0, total := 1 }
          (pollJobStatus "J9")
    ∧ handleBulkUpload pollJobStatus (some { status := "started", job_id := "J9", message := "" })
      = SubmitOutcome.started
          { id := "J9", jobType := "bulk", status := "started",
            progress := 0, completed := 0, failed := 0, total := 0 }
          (pollJobStatus "J9") :=
  c4_submission_started_defined_outcome { status := "started", job_id := "J9", message := "" } rfl

/-- Claim C5 (corrected): the upsert is keyed on the `url` field stored
inside the payload, so the claimed behaviour holds exactly when each
successful payload carries the item key as its own `url` field: then
applying the same event twice keeps the ResultSet size unchanged, and two
successive successful events for the same key leave exactly one entry for
that key, holding the second payload. -/
theorem c5_upsert_idempotent_lww (s : HomeState) (cj : Option Job) (b : Bool)
    (jid k : String) (v v1 v2 : ResultRecord)
    (hv : v.url = k) (h1 : v1.url = k) (h2 : v2.url = k) :
    (handleWsMessage (handleWsMessage s (.urlComplete jid true k (some v)))
        (.urlComplete jid true k (some v))).jobResults.length
      = (handleWsMessage s (.urlComplete jid true k (some v))).jobResults.length
    ∧ (handleWsMessage (handleWsMessage
          { currentJob := cj, jobResults := [], isLoading := b }
          (.urlComplete jid true k (some v1)))
        (.urlComplete jid true k (some v2))).jobResults = [v2]
    ∧ ((handleWsMessage (handleWsMessage
          { currentJob := cj, jobResults := [], isLoading := b }
          (.urlComplete jid true k (some v1)))
        (.urlComplete jid true k (some v2))).jobResults.filter
          (fun r => r.url == k)) = [v2] := by
  have hlww : (handleWsMessage (handleWsMessage
          { currentJob := cj, jobResults := [], isLoading := b }
          (.urlComplete jid true k (some v1)))
        (.urlComplete jid true k (some v2))).jobResults = [v2] := by
    simp [handleWsMessage, upsert, findIndex, h1]
  refine ⟨?_, hlww, ?_⟩
  · simp only [handleWsMessage]
    exact upsert_upsert_length _ k v hv
  · rw [hlww]
    simp [h2]

/-- Claim C5 counterexample: the same successful event (item key `a.com`,
payload whose stored `url` field is `b.com`) applied twice grows the
ResultSet from one entry to two, because the duplicate lookup compares
the event key with the stored `url` field; the claim says the size stays
unchanged for any same-key, same-payload duplicate. -/
theorem c5_counterexample :
    ¬ ((handleWsMessage (handleWsMessage
          { currentJob := none, jobResults := [], isLoading := false }
          (.urlComplete "J1" true "a.com" (some { url := "b.com", content := "v" })))
        (.urlComplete "J1" true "a.com" (some { url := "b.com", content := "v" }))).jobResults.length
      = (handleWsMessage
          { currentJob := none, jobResults := [], isLoading := false }
          (.urlComplete "J1" true "a.com" (some { url := "b.com", content := "v" }))).jobResults.length) := by
  decide

/-- Claim C5 witness: the amended theorem evaluated at payloads whose
`url` field equals the item key `a.com`. -/
theorem c5_witness :
    (handleWsMessage (handleWsMessage
        { currentJob := none, jobResults := [], isLoading := false }
        (.urlComplete "J1" true "a.com" (some { url := "a.com", content := "v0" })))
      (.urlComplete "J1" true "a.com" (some { url := "a.com", content := "v0" }))).jobResults.length
      = (handleWsMessage
        { currentJob := none, jobResults := [], isLoading := false }
        (.urlComplete "J1" true "a.com" (some { url := "a.com", content := "v0" }))).jobResults.length
    ∧ (handleWsMessage (handleWsMessage
          { currentJob := none, jobResults := [], isLoading := false }
          (.urlComplete "J1" true "a.com" (some { url := "a.com", content := "v1" })))
        (.urlComplete "J1" true "a.com" (some { url := "a.com", content := "v2" }))).jobResults
      = [{ url := "a.com", content := "v2" }]
    ∧ ((handleWsMessage (handleWsMessage
          { currentJob := none, jobResults := [], isLoading := false }
          (.urlComplete "J1" true "a.com" (some { url := "a.com", content := "v1" })))
        (.urlComplete "J1" true "a.com" (some { url := "a.com", content := "v2" }))).jobResults.filter
          (fun r => r.url == "a.com")) = [{ url := "a.com", content := "v2" }] :=
  c5_upsert_idempotent_lww
    { currentJob := none, jobResults := [], isLoading := false } none false
    "J1" "a.com" { url := "a.com", content := "v0" }
    { url := "a.com", content := "v1" } { url := "a.com", content := "v2" }
    rfl rfl rfl

/-- Claim C6 (confirmed): along any run of consecutive losses whose close
codes are all different from 1000, starting at attempt 0, the scheduled
delays are exactly the prefix of 1000, 2000, 4000, 8000, 16000 ms of the
length of the run, and never more than five retries are scheduled. -/
theorem c6_backoff_sequence (codes : List Nat) (h : ∀ c ∈ codes, c ≠ 1000) :
    scheduleSeq 0 codes = backoffTable.take codes.length
    ∧ (scheduleSeq 0 codes).length ≤ 5 := by
  have he := scheduleSeq_eq codes 0 h
  simp only [List.drop_zero] at he
  refine ⟨he, ?_⟩
  rw [he]
  simp [backoffTable]

/-- Claim C6 witness: six consecutive losses with code 1006 yield exactly
the five backoff delays and no sixth retry. -/
theorem c6_witness :
    scheduleSeq 0 [1006, 1006, 1006, 1006, 1006, 1006]
      = backoffTable.take (List.length [1006, 1006, 1006, 1006, 1006, 1006])
    ∧ (scheduleSeq 0 [1006, 1006, 1006, 1006, 1006, 1006]).length ≤ 5 :=
  c6_backoff_sequence [1006, 1006, 1006, 1006, 1006, 1006] (by decide)

/-- Claim C7 (confirmed): a loss carrying the manual-close code 1000
never schedules a retry, at any attempt count, so a session ending in
code 1000 schedules zero retries from that point on; the effect cleanup
likewise leaves no pending retry timer. -/
theorem c7_manual_close_no_retry (a : Nat) (rest : List Nat) (s : ConnState) :
    oncloseSchedule 1000 a = none
    ∧ scheduleSeq a (1000 :: rest) = []
    ∧ (cleanup s).pendingRetry = none := by
  refine ⟨?_, ?_, rfl⟩
  · simp [oncloseSchedule]
  · simp [scheduleSeq, oncloseSchedule]

/-- Claim C8 (corrected): on a successful establishment the `onopen`
handler sets the status to connected, clears the error and resets the
attempt counter to 0, but it contains no `clearTimeout`: an in-flight
retry timer is left exactly as it was, not cancelled. -/
theorem c8_onopen_effects (s : ConnState) :
    (onopen s).isConnected = true
    ∧ (onopen s).reconnectAttempts = 0
    ∧ (onopen s).error = none
    ∧ (onopen s).pendingRetry = s.pendingRetry :=
  ⟨rfl, rfl, rfl, rfl⟩

/-- Claim C8 counterexample: from a state with a pending 4000 ms retry
timer, `onopen` connects and resets the attempt counter but the timer is
still pending afterwards, contradicting the claimed cancellation. -/
theorem c8_counterexample :
    ¬ ((onopen { isConnected := false, error := none, reconnectAttempts := 2, pendingRetry := some 4000 }).isConnected = true
      ∧ (onopen { isConnected := false, error := none, reconnectAttempts := 2, pendingRetry := some 4000 }).reconnectAttempts = 0
      ∧ (onopen { isConnected := false, error := none, reconnectAttempts := 2, pendingRetry := some 4000 }).pendingRetry = none) := by
  decide

/-- Claim C9 (corrected): a `progress_update` for the tracked job simply
overwrites the snapshot progress with the progress field of the event —
no monotonicity is enforced, so the observed progress is non-decreasing
exactly when the events carry non-decreasing progress fields, which a
non-decreasing completed plus failed count does not guarantee. -/
theorem c9_progress_overwrite (s : HomeState) (j : Job)
    (hj : s.currentJob = some j) (p c f : Int) (t : Option Int) :
    (handleWsMessage s (.progressUpdate j.id p c f t)).currentJob.map Job.progress
      = some p := by
  simp [handleWsMessage, hj]

/-- Claim C9 witness: the amended theorem evaluated on a concrete tracked
job and update. -/
theorem c9_witness :
    (handleWsMessage
        { currentJob := some { id := "J1", jobType := "single", status := "started", progress := 0, completed := 0, failed := 0, total := 6 }, jobResults := [], isLoading := true }
        (.progressUpdate "J1" 40 2 0 none)).currentJob.map Job.progress
      = some 40 :=
  c9_progress_overwrite
    { currentJob := some { id := "J1", jobType := "single", status := "started", progress := 0, completed := 0, failed := 0, total := 6 }, jobResults := [], isLoading := true }
    { id := "J1", jobType := "single", status := "started", progress := 0, completed := 0, failed := 0, total := 6 }
    rfl 40 2 0 none

/-- Claim C9 counterexample: two updates for the tracked job with
completed plus failed rising 2 to 3 and status never `failed`, yet the
observed progress drops from 50 to 10 — the claimed monotonicity fails. -/
theorem c9_counterexample :
    ((handleWsMessage
        { currentJob := some { id := "J1", jobType := "single", status := "started", progress := 0, completed := 0, failed := 0, total := 6 }, jobResults := [], isLoading := true }
        (.progressUpdate "J1" 50 2 0 none)).currentJob.map (fun j => j.completed + j.failed)
      = some 2)
    ∧ ((handleWsMessage (handleWsMessage
        { currentJob := some { id := "J1", jobType := "single", status := "started", progress := 0, completed := 0, failed := 0, total := 6 }, jobResults := [], isLoading := true }
        (.progressUpdate "J1" 50 2 0 none)) (.progressUpdate "J1" 10 3 0 none)).currentJob.map (fun j => j.completed + j.failed)
      = some 3)
    ∧ ((handleWsMessage (handleWsMessage
        { currentJob := some { id := "J1", jobType := "single", status := "started", progress := 0, completed := 0, failed := 0, total := 6 }, jobResults := [], isLoading := true }
        (.progressUpdate "J1" 50 2 0 none)) (.progressUpdate "J1" 10 3 0 none)).currentJob.map Job.status
      = some "started")
    ∧ ¬ (∀ p1 p2 : Int,
        (handleWsMessage
          { currentJob := some { id := "J1", jobType := "single", status := "started", progress := 0, completed := 0, failed := 0, total := 6 }, jobResults := [], isLoading := true }
          (.progressUpdate "J1" 50 2 0 none)).currentJob.map Job.progress = some p1 →
        (handleWsMessage (handleWsMessage
          { currentJob := some { id := "J1", jobType := "single", status := "started", progress := 0, completed := 0, failed := 0, total := 6 }, jobResults := [], isLoading := true }
          (.progressUpdate "J1" 50 2 0 none)) (.progressUpdate "J1" 10 3 0 none)).currentJob.map Job.progress = some p2 →
        p1 ≤ p2) := by
  refine ⟨by decide, by decide, by decide, ?_⟩
  intro hmono
  exact absurd (hmono 50 10 (by decide) (by decide)) (by decide)

/-- Claim C10 (corrected): the effect handles only the latest message of
the transcript, so messages are applied in receipt order exactly when at
most one message arrives between consecutive processing steps; this
theorem proves that one-per-step runs coincide with applying every
message in order, and the counterexample shows a two-message batch
skipping its first message. -/
theorem c10_singleton_batches_in_order (s : HomeState) (msgs : List WsMessage) :
    runEffects s (msgs.map (fun m => [m])) = applyInOrder s msgs := by
  induction msgs generalizing s with
  | nil => rfl
  | cons m rest ih =>
    simp only [List.map_cons, runEffects, applyInOrder, List.foldl_cons]
    have hone : processLatest s [m] = handleWsMessage s m := rfl
    rw [hone]
    exact ih (handleWsMessage s m)

/-- Claim C10 counterexample: two `url_complete` messages arriving in one
batch produce one stored result (the first message is skipped), while
applying every received message in order produces two — so not every
received message is applied. -/
theorem c10_counterexample :
    ¬ (runEffects { currentJob := none, jobResults := [], isLoading := false }
        [[WsMessage.urlComplete "J1" true "a.com" (some { url := "a.com", content := "v1" }),
          WsMessage.urlComplete "J1" true "b.com" (some { url := "b.com", content := "v2" })]]
      = applyInOrder { currentJob := none, jobResults := [], isLoading := false }
          [WsMessage.urlComplete "J1" true "a.com" (some { url := "a.com", content := "v1" }),
           WsMessage.urlComplete "J1" true "b.com" (some { url := "b.com", content := "v2" })]) := by
  decide

end NumberScraper
